import Mathlib

/-!
Verification of the `cost-estimate-mcp` repository.

The repository ships two versions of a single-file MCP server exposing one
tool, `estimate_cost`:

* `src/src/index.ts` (modelled below in namespace `V2`): the current version,
  with keyword-based refactoring-risk detection, IDE-overhead default 60000
  and safety-multiplier default 1.5;
* `src/unnamed/part_000` (namespace `V1`): an earlier version without the
  keyword detection, with defaults 50000 and 1.3.

JavaScript numbers are modelled as `ℚ` (all constants in the source are
exactly representable; no claim proved here depends on binary floating-point
rounding).  `Math.round` is modelled as `⌊x + 1/2⌋`, which is its exact
behaviour on finite doubles (round half towards +∞).  The JS falsy guard
`x || d` on numbers is modelled by `jsOrNum` (0 falls back to `d`; `NaN`
inputs are outside the model), and on strings by `jsOrStr` ("" falls back).

The filesystem scanner and the exact-measurement cost mode described by the
specification have no implementation under `src/`; they are modelled from
the spec in the `Scanner` and `ExactMode` namespaces (see the doc comments
there).
-/

namespace CostEstimate

/-- JS `x || d` for numeric `x`: `0` is falsy and falls back to `d`. -/
def jsOrNum (x d : ℚ) : ℚ := if x = 0 then d else x

/-- JS `x || d` for an optional string `x`: `undefined` and `""` fall back. -/
def jsOrStr (x : Option String) (d : String) : String :=
  match x with
  | none => d
  | some s => if s = "" then d else s

/-- JS `Math.round`: round half towards positive infinity. -/
def jround (q : ℚ) : ℤ := ⌊q + 1/2⌋

/-- `text.includes pat` on character lists: does `pat` occur contiguously
inside `text`?  Mirrors JavaScript `String.prototype.includes`. -/
def listIncludes (pat : List Char) : List Char → Bool
  | [] => pat.isEmpty
  | c :: rest => pat.isPrefixOf (c :: rest) || listIncludes pat rest

/-- `s.toLowerCase()`, restricted to the ASCII range (all keywords the
source tests for are ASCII). -/
def lowerStr (s : String) : String := String.mk (s.toList.map Char.toLower)

/-- `s.includes pat` on Lean strings. -/
def strIncludes (s pat : String) : Bool := listIncludes pat.toList s.toList

/-- `s.toLowerCase().includes pat`, the exact shape used by the source's
keyword detection. -/
def includesLower (s pat : String) : Bool := strIncludes (lowerStr s) pat

/-- Insert `,` after every third character of a least-significant-digit-first
digit list (helper for `toLocaleString`). -/
def group3 : List Char → List Char
  | a :: b :: c :: rest@(_ :: _) => a :: b :: c :: ',' :: group3 rest
  | l => l

/-- `n.toLocaleString()` for a natural number (en-US digit grouping). -/
def natLoc (n : Nat) : String :=
  String.mk (group3 (Nat.toDigits 10 n).reverse).reverse

/-- `z.toLocaleString()` for an integer. -/
def intLoc (z : ℤ) : String :=
  if z < 0 then "-" ++ natLoc z.natAbs else natLoc z.natAbs

/-- Rendering of a JS number by string interpolation.  Integral values are
rendered exactly; the non-integral branch is an abstract rendering (no claim
proved in this file depends on the decimal digits JS would produce). -/
def numStr (q : ℚ) : String :=
  if q.den = 1 then toString q.num else toString q.num ++ "/" ++ toString q.den

/-- `q.toLocaleString()` for a JS number; integral values get en-US digit
grouping, non-integral values fall back to `numStr` (abstract rendering). -/
def ratLoc (q : ℚ) : String :=
  if q.den = 1 then intLoc q.num else numStr q

/-- Join a list of strings with newlines (the shape of the source's
multi-line template literal). -/
def joinLines : List String → String
  | [] => ""
  | [l] => l
  | l :: ls@(_ :: _) => l ++ "\n" ++ joinLines ls

/-- The `risk_level` enum of the tool's input schema. -/
inductive RiskLevel where
  | LOW
  | MEDIUM
  | HIGH
deriving DecidableEq

/-- The wire string of a `RiskLevel`. -/
def RiskLevel.str : RiskLevel → String
  | .LOW => "LOW"
  | .MEDIUM => "MEDIUM"
  | .HIGH => "HIGH"

/-- The argument object of the `estimate_cost` tool, as accepted by the zod
input schema common to both source versions.  Optional fields are `Option ℚ`
(`none` is a JS `undefined`); `estimated_cache_read_tokens`, `task_name`,
`pre_plan` and `risk_level` are required. -/
structure EstimateInput where
  task_name : String
  pre_plan : String
  estimated_cache_read_tokens : ℚ
  estimated_ide_context_overhead : Option ℚ
  estimated_cache_write_tokens : Option ℚ
  estimated_input_tokens : Option ℚ
  estimated_output_tokens : Option ℚ
  estimated_tool_calls : Option ℚ
  estimated_iterations : Option ℚ
  estimated_context_accumulation : Option ℚ
  safety_multiplier : Option ℚ
  estimated_tokens : Option String
  risk_level : RiskLevel

/-- Replace the deprecated `estimated_tokens` override field, leaving every
other field unchanged. -/
def EstimateInput.setOverride (i : EstimateInput) (o : Option String) :
    EstimateInput :=
  ⟨i.task_name, i.pre_plan, i.estimated_cache_read_tokens,
   i.estimated_ide_context_overhead, i.estimated_cache_write_tokens,
   i.estimated_input_tokens, i.estimated_output_tokens,
   i.estimated_tool_calls, i.estimated_iterations,
   i.estimated_context_accumulation, i.safety_multiplier, o, i.risk_level⟩

/-- The single `content` item of a tool result: its text, and whether the
result carries the `isError: true` flag. -/
structure ToolResult where
  text : String
  isError : Bool
deriving DecidableEq

/-- The outbound `elicitation/create` request: the short message plus the
three read-only form fields (each declared with a one-element `enum`, so the
displayed value can only be accepted or rejected, not edited). -/
structure Elicitation where
  message : String
  cost_display : String
  risk_display : String
  plan_display : String

end CostEstimate

namespace CostEstimate.V2

/-! ## `src/src/index.ts` (current version) -/

/-- `const TOOL_CALL_OVERHEAD = 1500`. -/
def TOOL_CALL_OVERHEAD : ℚ := 1500

/-- Destructuring default of `estimated_ide_context_overhead` (60000). -/
def IDE_DEFAULT : ℚ := 60000

/-- Destructuring default of `safety_multiplier` (1.5). -/
def SAFETY_DEFAULT : ℚ := 3/2

/-- `isRefactoringTask`: keyword detection.  Refactoring vocabulary is
tested against the lower-cased task name only; codebase-search phrases
against the lower-cased plan only — exactly the nine `includes` tests of
the source. -/
def isRefactoringTask (i : EstimateInput) : Bool :=
  includesLower i.task_name "refactor" ||
  includesLower i.task_name "refactoring" ||
  includesLower i.task_name "extract" ||
  includesLower i.task_name "share" ||
  includesLower i.task_name "common" ||
  includesLower i.task_name "duplicate" ||
  includesLower i.pre_plan "codebase_search" ||
  includesLower i.pre_plan "codebase search" ||
  includesLower i.pre_plan "search the codebase"

/-- The warning string assigned when the 3× multiplier fires. -/
def REFACTORING_WARNING : String :=
  "\n⚠️ REFACTORING DETECTED: Your cache read estimate seems low for a refactoring task. Applied 3x multiplier."

/-- `refactoringMultiplier`: 3.0 when the task is detected as refactoring
and the declared cache-read estimate is below 100000, else 1.0. -/
def refactoringMultiplier (i : EstimateInput) : ℚ :=
  if isRefactoringTask i then
    if i.estimated_cache_read_tokens < 100000 then 3 else 1
  else 1

/-- `refactoringWarning`: set together with the multiplier, else `""`. -/
def refactoringWarning (i : EstimateInput) : String :=
  if isRefactoringTask i then
    if i.estimated_cache_read_tokens < 100000 then REFACTORING_WARNING else ""
  else ""

/-- The destructured `estimated_iterations` parameter (default 1). -/
def iterationsParam (i : EstimateInput) : ℚ := i.estimated_iterations.getD 1

/-- `cacheReadTotal = estimated_cache_read_tokens * refactoringMultiplier *
(estimated_iterations || 1)`. -/
def cacheReadTotal (i : EstimateInput) : ℚ :=
  i.estimated_cache_read_tokens * refactoringMultiplier i *
    jsOrNum (iterationsParam i) 1

/-- `ideContextOverhead = estimated_ide_context_overhead || 60000` (after
the destructuring default 60000). -/
def ideContextOverhead (i : EstimateInput) : ℚ :=
  jsOrNum (i.estimated_ide_context_overhead.getD IDE_DEFAULT) IDE_DEFAULT

/-- `estimated_cache_write_tokens || 0` (destructuring default 0). -/
def cacheWriteVal (i : EstimateInput) : ℚ :=
  jsOrNum (i.estimated_cache_write_tokens.getD 0) 0

/-- `estimated_input_tokens || 0`. -/
def inputVal (i : EstimateInput) : ℚ :=
  jsOrNum (i.estimated_input_tokens.getD 0) 0

/-- `estimated_output_tokens || 0`. -/
def outputVal (i : EstimateInput) : ℚ :=
  jsOrNum (i.estimated_output_tokens.getD 0) 0

/-- `baseTokens = cacheReadTotal + ideContextOverhead + cacheWrite + input +
output`. -/
def baseTokens (i : EstimateInput) : ℚ :=
  cacheReadTotal i + ideContextOverhead i + cacheWriteVal i + inputVal i +
    outputVal i

/-- `toolCallOverhead = (estimated_tool_calls || 0) * TOOL_CALL_OVERHEAD`. -/
def toolCallOverhead (i : EstimateInput) : ℚ :=
  jsOrNum (i.estimated_tool_calls.getD 0) 0 * TOOL_CALL_OVERHEAD

/-- `contextAccumulation = estimated_context_accumulation || 0`. -/
def contextAccumulation (i : EstimateInput) : ℚ :=
  jsOrNum (i.estimated_context_accumulation.getD 0) 0

/-- `totalBeforeMultiplier = baseTokens + toolCallOverhead +
contextAccumulation`. -/
def totalBeforeMultiplier (i : EstimateInput) : ℚ :=
  baseTokens i + toolCallOverhead i + contextAccumulation i

/-- `finalMultiplier = safety_multiplier || 1.5` (destructuring default
1.5). -/
def finalMultiplier (i : EstimateInput) : ℚ :=
  jsOrNum (i.safety_multiplier.getD SAFETY_DEFAULT) SAFETY_DEFAULT

/-- `totalTokens = Math.round(totalBeforeMultiplier * finalMultiplier)`. -/
def totalTokens (i : EstimateInput) : ℤ :=
  jround (totalBeforeMultiplier i * finalMultiplier i)

/-- `displayTotal = estimated_tokens || totalTokens.toLocaleString()`. -/
def displayTotal (i : EstimateInput) : String :=
  jsOrStr i.estimated_tokens (intLoc (totalTokens i))

/-- `refactoringNote`: suffix of the cache-read line when the multiplier
fired. -/
def refactoringNote (i : EstimateInput) : String :=
  if refactoringMultiplier i > 1 then numStr (refactoringMultiplier i) ++ "x (refactoring) × "
  else ""

/-- The lines of the `tokenBreakdown` template literal, split at the
newlines of the source string.  The first line is the display-total line
(carrying the override, if any, and the refactoring warning); every later
line is rendered from the computed numeric values only. -/
def breakdownLines (i : EstimateInput) : List String :=
  ["Total: " ++ displayTotal i ++ " tokens" ++ refactoringWarning i,
   "• Cache Read (explicit): " ++ ratLoc i.estimated_cache_read_tokens ++
     " × " ++ refactoringNote i ++ numStr (iterationsParam i) ++
     " iterations = " ++ ratLoc (cacheReadTotal i) ++ " tokens",
   "• IDE Context (automatic): " ++ ratLoc (ideContextOverhead i) ++ " tokens",
   "• Cache Write: " ++ ratLoc (cacheWriteVal i) ++ " tokens",
   "• Input: " ++ ratLoc (inputVal i) ++ " tokens",
   "• Output: " ++ ratLoc (outputVal i) ++ " tokens",
   "• Tool Calls: " ++ numStr (jsOrNum (i.estimated_tool_calls.getD 0) 0) ++
     " × " ++ numStr TOOL_CALL_OVERHEAD ++ " = " ++
     ratLoc (toolCallOverhead i) ++ " tokens",
   "• Context Accumulation: " ++ ratLoc (contextAccumulation i) ++ " tokens",
   "• Base Total: " ++ ratLoc (totalBeforeMultiplier i) ++ " tokens",
   "• Safety Multiplier: " ++ numStr (finalMultiplier i) ++ "x",
   "• Final Estimate: " ++ intLoc (totalTokens i) ++ " tokens"]

/-- `tokenBreakdown`: the template literal shown to the user. -/
def tokenBreakdown (i : EstimateInput) : String :=
  joinLines (breakdownLines i)

/-- The outbound `elicitation/create` request built by the handler. -/
def elicitationOf (i : EstimateInput) : Elicitation :=
  ⟨"⚠️ Review Plan for: " ++ i.task_name, tokenBreakdown i,
   i.risk_level.str, i.pre_plan⟩

/-- The `[SYSTEM: USER_APPROVED]` text returned on `action === "accept"`. -/
def approvedText (task_name : String) : String :=
  "[SYSTEM: USER_APPROVED]\nAuthorization granted for task: \"" ++ task_name ++
    "\".\n\nIMMEDIATE ACTION: Proceed with the execution of the plan described above. Do not ask for further confirmation. Start generating code/text now."

/-- The `[SYSTEM: USER_REJECTED]` text returned on any other action. -/
def rejectedText (task_name : String) : String :=
  "[SYSTEM: USER_REJECTED]\nThe user denied the plan for \"" ++ task_name ++
    "\". Stop immediately. Ask the user for feedback on how to adjust the plan."

/-- The tail of the `estimate_cost` handler: the elicitation round trip and
the action dispatch, wrapped in the handler's `try`/`catch`.  `respond`
models the host application: given the outbound request it either returns a
decision object (whose `action` field, possibly absent, is the
`Option String`) or throws (the `Except.error` case, carrying the
stringified error).  A thrown fault is caught and turned into the
`isError: true` result; it is never re-raised (the function is total). -/
def handler (i : EstimateInput)
    (respond : Elicitation → Except String (Option String)) : ToolResult :=
  match respond (elicitationOf i) with
  | .error e => ⟨"Middleware Error: " ++ e, true⟩
  | .ok action =>
    if action = some "accept" then ⟨approvedText i.task_name, false⟩
    else ⟨rejectedText i.task_name, false⟩

end CostEstimate.V2

namespace CostEstimate.V1

/-! ## `src/unnamed/part_000` (earlier version) -/

/-- `const TOOL_CALL_OVERHEAD = 1500`. -/
def TOOL_CALL_OVERHEAD : ℚ := 1500

/-- Destructuring default of `estimated_ide_context_overhead` (50000). -/
def IDE_DEFAULT : ℚ := 50000

/-- Destructuring default of `safety_multiplier` (1.3). -/
def SAFETY_DEFAULT : ℚ := 13/10

/-- The destructured `estimated_iterations` parameter (default 1). -/
def iterationsParam (i : EstimateInput) : ℚ := i.estimated_iterations.getD 1

/-- `cacheReadTotal = estimated_cache_read_tokens *
(estimated_iterations || 1)` — this version has no refactoring detection. -/
def cacheReadTotal (i : EstimateInput) : ℚ :=
  i.estimated_cache_read_tokens * jsOrNum (iterationsParam i) 1

/-- `ideContextOverhead = estimated_ide_context_overhead || 50000`. -/
def ideContextOverhead (i : EstimateInput) : ℚ :=
  jsOrNum (i.estimated_ide_context_overhead.getD IDE_DEFAULT) IDE_DEFAULT

/-- `estimated_cache_write_tokens || 0`. -/
def cacheWriteVal (i : EstimateInput) : ℚ :=
  jsOrNum (i.estimated_cache_write_tokens.getD 0) 0

/-- `estimated_input_tokens || 0`. -/
def inputVal (i : EstimateInput) : ℚ :=
  jsOrNum (i.estimated_input_tokens.getD 0) 0

/-- `estimated_output_tokens || 0`. -/
def outputVal (i : EstimateInput) : ℚ :=
  jsOrNum (i.estimated_output_tokens.getD 0) 0

/-- `baseTokens` as in the source. -/
def baseTokens (i : EstimateInput) : ℚ :=
  cacheReadTotal i + ideContextOverhead i + cacheWriteVal i + inputVal i +
    outputVal i

/-- `toolCallOverhead = (estimated_tool_calls || 0) * TOOL_CALL_OVERHEAD`. -/
def toolCallOverhead (i : EstimateInput) : ℚ :=
  jsOrNum (i.estimated_tool_calls.getD 0) 0 * TOOL_CALL_OVERHEAD

/-- `contextAccumulation = estimated_context_accumulation || 0`. -/
def contextAccumulation (i : EstimateInput) : ℚ :=
  jsOrNum (i.estimated_context_accumulation.getD 0) 0

/-- `totalBeforeMultiplier = baseTokens + toolCallOverhead +
contextAccumulation`. -/
def totalBeforeMultiplier (i : EstimateInput) : ℚ :=
  baseTokens i + toolCallOverhead i + contextAccumulation i

/-- `finalMultiplier = safety_multiplier || 1.3`. -/
def finalMultiplier (i : EstimateInput) : ℚ :=
  jsOrNum (i.safety_multiplier.getD SAFETY_DEFAULT) SAFETY_DEFAULT

/-- `totalTokens = Math.round(totalBeforeMultiplier * finalMultiplier)`. -/
def totalTokens (i : EstimateInput) : ℤ :=
  jround (totalBeforeMultiplier i * finalMultiplier i)

/-- `displayTotal = estimated_tokens || totalTokens.toLocaleString()`. -/
def displayTotal (i : EstimateInput) : String :=
  jsOrStr i.estimated_tokens (intLoc (totalTokens i))

/-- The lines of this version's `tokenBreakdown` template literal (no
refactoring note or warning). -/
def breakdownLines (i : EstimateInput) : List String :=
  ["Total: " ++ displayTotal i ++ " tokens",
   "• Cache Read (explicit): " ++ ratLoc i.estimated_cache_read_tokens ++
     " × " ++ numStr (iterationsParam i) ++ " iterations = " ++
     ratLoc (cacheReadTotal i) ++ " tokens",
   "• IDE Context (automatic): " ++ ratLoc (ideContextOverhead i) ++ " tokens",
   "• Cache Write: " ++ ratLoc (cacheWriteVal i) ++ " tokens",
   "• Input: " ++ ratLoc (inputVal i) ++ " tokens",
   "• Output: " ++ ratLoc (outputVal i) ++ " tokens",
   "• Tool Calls: " ++ numStr (jsOrNum (i.estimated_tool_calls.getD 0) 0) ++
     " × " ++ numStr TOOL_CALL_OVERHEAD ++ " = " ++
     ratLoc (toolCallOverhead i) ++ " tokens",
   "• Context Accumulation: " ++ ratLoc (contextAccumulation i) ++ " tokens",
   "• Base Total: " ++ ratLoc (totalBeforeMultiplier i) ++ " tokens",
   "• Safety Multiplier: " ++ numStr (finalMultiplier i) ++ "x",
   "• Final Estimate: " ++ intLoc (totalTokens i) ++ " tokens"]

/-- `tokenBreakdown`: the template literal shown to the user. -/
def tokenBreakdown (i : EstimateInput) : String :=
  joinLines (breakdownLines i)

/-- The outbound `elicitation/create` request built by the handler. -/
def elicitationOf (i : EstimateInput) : Elicitation :=
  ⟨"⚠️ Review Plan for: " ++ i.task_name, tokenBreakdown i,
   i.risk_level.str, i.pre_plan⟩

/-- The approval/rejection dispatch and the `catch`, identical in text to
the current version (see `V2.handler` for the modelling convention). -/
def handler (i : EstimateInput)
    (respond : Elicitation → Except String (Option String)) : ToolResult :=
  match respond (elicitationOf i) with
  | .error e => ⟨"Middleware Error: " ++ e, true⟩
  | .ok action =>
    if action = some "accept" then ⟨V2.approvedText i.task_name, false⟩
    else ⟨V2.rejectedText i.task_name, false⟩

end CostEstimate.V1

namespace CostEstimate.Scanner

/-!
Modelled from the spec: the tokenizing filesystem scanner of spec §4.1 has
no implementation under `src/` (the repository only ships the heuristic
cost-model tool); the definitions below follow the spec's algorithm.  A
filesystem is a finite tree; collaborator failures are data: `missing` is a
path whose `stat` throws, `unreadable` a file whose `readFile` throws
(binary content, permission or encoding error).  A file carries the token
count its text encodes to.
-/

mutual

/-- Modelled from the spec: a filesystem node as seen by the scanner. -/
inductive FsNode where
  | missing
  | unreadable (ext : String)
  | file (ext : String) (tokens : Nat)
  | dir (name : String) (children : FsForest)

/-- Modelled from the spec: the immediate entries of a directory. -/
inductive FsForest where
  | nil
  | cons (hd : FsNode) (tl : FsForest)

end

/-- `ScanResult` of spec §3. -/
structure ScanResult where
  tokens : Nat
  filesCounted : Nat
  filesSkipped : Nat
deriving DecidableEq

/-- Element-wise sum of two scan results. -/
def addScan (a b : ScanResult) : ScanResult :=
  ⟨a.tokens + b.tokens, a.filesCounted + b.filesCounted,
   a.filesSkipped + b.filesSkipped⟩

/-- `IgnoreSets` of spec §3: directory names skipped wholesale and file
extensions treated as zero-token one-skip (stored lower-case). -/
structure IgnoreSets where
  dirs : List String
  exts : List String

/-- Modelled from the spec: the filesystem collaborator's `stat`; it throws
on a missing path and succeeds on every existing node. -/
def statE : FsNode → Except String Unit
  | .missing => .error "ENOENT"
  | _ => .ok ()

/-- `true` iff statting the node fails. -/
def statFails (n : FsNode) : Bool :=
  match statE n with
  | .error _ => true
  | .ok _ => false

mutual

/-- Modelled from the spec: `scan(path)` of spec §4.1.  The result type is
`Except` so that an uncaught collaborator fault could surface; the stat
failure and the read failure are caught where they arise (the `missing` and
`unreadable` branches), exactly as the spec's failure policy requires. -/
def scanT (ign : IgnoreSets) : FsNode → Except String ScanResult
  | .missing => .ok ⟨0, 0, 1⟩
  | .unreadable ext =>
    if lowerStr ext ∈ ign.exts then .ok ⟨0, 0, 1⟩ else .ok ⟨0, 0, 1⟩
  | .file ext tokens =>
    if lowerStr ext ∈ ign.exts then .ok ⟨0, 0, 1⟩ else .ok ⟨tokens, 1, 0⟩
  | .dir name children =>
    if name ∈ ign.dirs then .ok ⟨0, 0, 0⟩ else scanForestT ign children

/-- Recurse into each entry of a directory and sum the results; a fault in
a child would propagate (none ever occurs, see `C8_scan_total`). -/
def scanForestT (ign : IgnoreSets) : FsForest → Except String ScanResult
  | .nil => .ok ⟨0, 0, 0⟩
  | .cons hd tl => do
    let r ← scanT ign hd
    let rs ← scanForestT ign tl
    return addScan r rs

end

end CostEstimate.Scanner

namespace CostEstimate.ExactMode

/-!
Modelled from the spec: the exact-measurement cost mode of spec §4.2(a) has
no implementation under `src/`; the definitions below follow the spec's
words.  A complexity tier fixes a minimum iteration count and a search
overhead allowance; the IDE/project-index overhead constant is 90000 and
the `HIGH` tier's floors are 3 iterations and 60000 search-overhead tokens
(spec §8).
-/

/-- Modelled from the spec: the floor values a complexity tier fixes (the
per-iteration output floor plays no role in the processed-input total and
is omitted). -/
structure TierFloors where
  minIterations : Nat
  searchOverhead : Nat

/-- The fixed IDE/project-index overhead constant (spec §8). -/
def IDE_OVERHEAD : Nat := 90000

/-- The `HIGH` tier's floors (spec §8). -/
def highFloors : TierFloors := ⟨3, 60000⟩

/-- `effectiveIterations = max(callerSuppliedIterations,
tierMinimumIterations)`. -/
def effectiveIterations (t : TierFloors) (iters : Nat) : Nat :=
  max iters t.minIterations

/-- `baseContext` = measured file tokens + tier search overhead + IDE
overhead constant. -/
def baseContext (t : TierFloors) (measured : Nat) : Nat :=
  measured + t.searchOverhead + IDE_OVERHEAD

/-- Modelled from the spec: the total processed input, accumulated turn by
turn — turn `k` reprocesses the base context plus `k` turns' worth of
history growth. -/
def totalProcessedInput (t : TierFloors) (measured iters growth : Nat) : Nat :=
  (List.range (effectiveIterations t iters)).foldl
    (fun acc k => acc + (baseContext t measured + k * growth)) 0

end CostEstimate.ExactMode

namespace CostEstimate

/-! ## Concrete inputs used by counterexamples and witnesses -/

/-- An input that omits every optional field except a supplied tool-call
count of 0, with `estimated_cache_read_tokens = 0` (the C5 scenario). -/
def defaultsInput (task plan : String) (risk : RiskLevel) : EstimateInput :=
  ⟨task, plan, 0, none, none, none, none, some 0, none, none, none, none, risk⟩

/-- A task whose plan text (but not task name) contains the word
`refactor`, with a cache-read estimate below the 100000 threshold. -/
def planRefactorInput : EstimateInput :=
  ⟨"Fix login bug", "refactor the auth module to remove duplication", 50000,
   none, none, none, none, none, none, none, none, none, .LOW⟩

/-- A task whose name contains `Refactor`, with a low cache-read
estimate. -/
def nameRefactorInput : EstimateInput :=
  ⟨"Refactor Database", "read the files and edit them in place", 50000,
   none, none, none, none, none, none, none, none, none, .HIGH⟩

/-- A task whose name contains `Refactor` but whose cache-read estimate is
at the 100000 threshold. -/
def nameRefactorBigInput : EstimateInput :=
  ⟨"Refactor Database", "read the files and edit them in place", 100000,
   none, none, none, none, none, none, none, none, none, .HIGH⟩

/-- An input with a negative declared cache-read estimate and every
optional field omitted. -/
def negativeInput : EstimateInput :=
  ⟨"a", "b", -100000, none, none, none, none, none, none, none, none, none,
   .LOW⟩

/-- A keyword-free input with every optional numeric field explicitly
supplied and non-zero. -/
def fullySuppliedInput : EstimateInput :=
  ⟨"Fix typo", "edit the readme directly", 10000, some 50000, some 5000,
   some 1000, some 2000, some 10, some 2, some 3000, some 2, none, .LOW⟩

/-- Every numeric field of the input, where supplied, is non-negative (the
hypothesis of the amended C6). -/
def NonNegFields (i : EstimateInput) : Prop :=
  0 ≤ i.estimated_cache_read_tokens ∧
  (∀ x ∈ i.estimated_ide_context_overhead, (0 : ℚ) ≤ x) ∧
  (∀ x ∈ i.estimated_cache_write_tokens, (0 : ℚ) ≤ x) ∧
  (∀ x ∈ i.estimated_input_tokens, (0 : ℚ) ≤ x) ∧
  (∀ x ∈ i.estimated_output_tokens, (0 : ℚ) ≤ x) ∧
  (∀ x ∈ i.estimated_tool_calls, (0 : ℚ) ≤ x) ∧
  (∀ x ∈ i.estimated_iterations, (0 : ℚ) ≤ x) ∧
  (∀ x ∈ i.estimated_context_accumulation, (0 : ℚ) ≤ x) ∧
  (∀ x ∈ i.safety_multiplier, (0 : ℚ) ≤ x)

/-- An optional numeric field that is explicitly supplied with a non-zero
value (the hypothesis shape of C10). -/
def suppliedNZ (o : Option ℚ) : Prop := ∃ x, o = some x ∧ x ≠ 0

/-- A sample ignore configuration for scanner witnesses. -/
def sampleIgnore : Scanner.IgnoreSets := ⟨["node_modules"], [".png"]⟩

/-- A sample directory tree: one readable file, one ignored file, one
missing entry. -/
def sampleTree : Scanner.FsNode :=
  .dir "src"
    (.cons (.file ".ts" 1000) (.cons (.file ".png" 50) (.cons .missing .nil)))

end CostEstimate

namespace CostEstimate

/-! ## Helper lemmas -/

theorem toList_append (a b : String) : (a ++ b).toList = a.toList ++ b.toList :=
  rfl

theorem jsOrNum_of_ne (x d : ℚ) (h : x ≠ 0) : jsOrNum x d = x := if_neg h

theorem jsOrNum_zero (d : ℚ) : jsOrNum 0 d = d := if_pos rfl

theorem jsOrNum_nonneg (x d : ℚ) (hx : 0 ≤ x) (hd : 0 ≤ d) :
    0 ≤ jsOrNum x d := by
  unfold jsOrNum
  split <;> assumption

theorem getD_nonneg (o : Option ℚ) (d : ℚ) (h : ∀ x ∈ o, 0 ≤ x)
    (hd : 0 ≤ d) : 0 ≤ o.getD d := by
  cases o with
  | none => simpa using hd
  | some x => exact h x rfl

theorem jround_eq_of (q : ℚ) (z : ℤ) (h₁ : (z : ℚ) ≤ q + 1/2)
    (h₂ : q + 1/2 < z + 1) : jround q = z := by
  rw [jround, Int.floor_eq_iff]
  · exact ⟨h₁, by exact_mod_cast h₂⟩

theorem jround_nonneg (q : ℚ) (h : 0 ≤ q) : 0 ≤ jround q := by
  rw [jround]
  exact Int.le_floor.mpr (by push_cast; linarith)

theorem isPrefixOf_append_right (p s t : List Char)
    (h : p.isPrefixOf s = true) : p.isPrefixOf (s ++ t) = true := by
  induction p generalizing s with
  | nil => simp [List.isPrefixOf]
  | cons a p ih =>
    cases s with
    | nil => simp [List.isPrefixOf] at h
    | cons b s =>
      simp only [List.cons_append, List.isPrefixOf, Bool.and_eq_true] at h ⊢
      exact ⟨h.1, ih s h.2⟩

theorem listIncludes_nil_pat (t : List Char) : listIncludes [] t = true := by
  cases t <;> simp [listIncludes, List.isPrefixOf]

theorem listIncludes_append_left (p t : List Char)
    (h : listIncludes p t = true) (s : List Char) :
    listIncludes p (s ++ t) = true := by
  induction s with
  | nil => simpa using h
  | cons a s ih => simp [listIncludes, ih]

theorem listIncludes_append_right (p s t : List Char)
    (h : listIncludes p s = true) : listIncludes p (s ++ t) = true := by
  induction s with
  | nil =>
    have hp : p = [] := by
      cases p with
      | nil => rfl
      | cons a p => simp [listIncludes, List.isEmpty] at h
    subst hp
    exact listIncludes_nil_pat t
  | cons a s ih =>
    simp only [listIncludes, Bool.or_eq_true] at h
    rcases h with h | h
    · simp only [List.cons_append, listIncludes, Bool.or_eq_true]
      exact Or.inl (isPrefixOf_append_right p (a :: s) t h)
    · simp only [List.cons_append, listIncludes, Bool.or_eq_true]
      exact Or.inr (ih h)

theorem strIncludes_append_left (s t pat : String)
    (h : strIncludes t pat = true) : strIncludes (s ++ t) pat = true := by
  unfold strIncludes at *
  rw [toList_append]
  exact listIncludes_append_left _ _ h _

theorem strIncludes_append_right (s t pat : String)
    (h : strIncludes s pat = true) : strIncludes (s ++ t) pat = true := by
  unfold strIncludes at *
  rw [toList_append]
  exact listIncludes_append_right _ _ _ h

theorem approvedText_has_proceed (name : String) :
    strIncludes (V2.approvedText name) "Proceed" = true := by
  unfold V2.approvedText
  exact strIncludes_append_left _ _ _ (by decide)

theorem rejectedText_has_stop (name : String) :
    strIncludes (V2.rejectedText name) "Stop immediately" = true := by
  unfold V2.rejectedText
  exact strIncludes_append_left _ _ _ (by decide)

theorem foldl_range_sum (f : ℕ → ℕ) (n : ℕ) :
    (List.range n).foldl (fun a k => a + f k) 0 =
      ∑ k in Finset.range n, f k := by
  induction n with
  | zero => simp
  | succ n ih =>
    rw [List.range_succ, List.foldl_append, Finset.sum_range_succ, ih]
    simp

end CostEstimate

namespace CostEstimate

/-! ## More helper lemmas -/

theorem isPrefixOf_self (l : List Char) : l.isPrefixOf l = true := by
  induction l with
  | nil => rfl
  | cons a l ih => simp [List.isPrefixOf, ih]

theorem listIncludes_self (p : List Char) : listIncludes p p = true := by
  cases p with
  | nil => rfl
  | cons a p => simp [listIncludes, isPrefixOf_self]

theorem strIncludes_self (s : String) : strIncludes s s = true :=
  listIncludes_self s.toList

theorem joinLines_head_includes (a : String) (rest : List String)
    (pat : String) (h : strIncludes a pat = true) :
    strIncludes (joinLines (a :: rest)) pat = true := by
  cases rest with
  | nil => simpa [joinLines] using h
  | cons b l =>
    have h2 := strIncludes_append_right (a ++ "\n") (joinLines (b :: l)) pat
      (strIncludes_append_right a "\n" pat h)
    simpa [joinLines] using h2

end CostEstimate

namespace CostEstimate.Scanner

mutual

theorem scanT_ok (ign : IgnoreSets) :
    (n : FsNode) → ∃ r, scanT ign n = Except.ok r
  | .missing => ⟨_, rfl⟩
  | .unreadable ext => by
    unfold scanT
    split <;> exact ⟨_, rfl⟩
  | .file ext t => by
    unfold scanT
    split <;> exact ⟨_, rfl⟩
  | .dir name cs => by
    unfold scanT
    split
    · exact ⟨_, rfl⟩
    · exact scanForestT_ok ign cs

theorem scanForestT_ok (ign : IgnoreSets) :
    (f : FsForest) → ∃ r, scanForestT ign f = Except.ok r
  | .nil => ⟨_, rfl⟩
  | .cons hd tl => by
    obtain ⟨r, hr⟩ := scanT_ok ign hd
    obtain ⟨rs, hrs⟩ := scanForestT_ok ign tl
    refine ⟨addScan r rs, ?_⟩
    unfold scanForestT
    rw [hr, hrs]
    rfl

end

end CostEstimate.Scanner

namespace CostEstimate

/-! ## Claim theorems -/

/-- C1: For every call to `estimate_cost` (heuristic-breakdown mode), the
pre-multiplier total equals (declared cache-read tokens × risk multiplier ×
iteration count) + IDE overhead + cache-write tokens + input tokens +
output tokens + (tool-call count × 1500) + context-accumulation tokens, and
the final token total equals round(preMultiplierTotal × safetyMultiplier).
Each component is the effective value after default substitution (an
omitted field — and, mirroring the JS falsy guard, a supplied 0 — is
replaced by its documented default); cache-read is the only component the
iteration count scales.  Stated for both source versions; the earlier
version has no risk multiplier (identically 1). -/
theorem C1_pre_multiplier_formula (i : EstimateInput) :
    (V2.totalBeforeMultiplier i =
      i.estimated_cache_read_tokens * V2.refactoringMultiplier i *
          jsOrNum (i.estimated_iterations.getD 1) 1 +
        jsOrNum (i.estimated_ide_context_overhead.getD 60000) 60000 +
        jsOrNum (i.estimated_cache_write_tokens.getD 0) 0 +
        jsOrNum (i.estimated_input_tokens.getD 0) 0 +
        jsOrNum (i.estimated_output_tokens.getD 0) 0 +
        jsOrNum (i.estimated_tool_calls.getD 0) 0 * 1500 +
        jsOrNum (i.estimated_context_accumulation.getD 0) 0 ∧
      V2.totalTokens i =
        jround (V2.totalBeforeMultiplier i *
          jsOrNum (i.safety_multiplier.getD (3/2)) (3/2))) ∧
    (V1.totalBeforeMultiplier i =
      i.estimated_cache_read_tokens *
          jsOrNum (i.estimated_iterations.getD 1) 1 +
        jsOrNum (i.estimated_ide_context_overhead.getD 50000) 50000 +
        jsOrNum (i.estimated_cache_write_tokens.getD 0) 0 +
        jsOrNum (i.estimated_input_tokens.getD 0) 0 +
        jsOrNum (i.estimated_output_tokens.getD 0) 0 +
        jsOrNum (i.estimated_tool_calls.getD 0) 0 * 1500 +
        jsOrNum (i.estimated_context_accumulation.getD 0) 0 ∧
      V1.totalTokens i =
        jround (V1.totalBeforeMultiplier i *
          jsOrNum (i.safety_multiplier.getD (13/10)) (13/10))) := by
  constructor
  · constructor
    · simp only [V2.totalBeforeMultiplier, V2.baseTokens, V2.cacheReadTotal,
        V2.ideContextOverhead, V2.cacheWriteVal, V2.inputVal, V2.outputVal,
        V2.toolCallOverhead, V2.contextAccumulation, V2.iterationsParam,
        V2.IDE_DEFAULT, V2.TOOL_CALL_OVERHEAD]
    · simp only [V2.totalTokens, V2.finalMultiplier, V2.SAFETY_DEFAULT]
  · constructor
    · simp only [V1.totalBeforeMultiplier, V1.baseTokens, V1.cacheReadTotal,
        V1.ideContextOverhead, V1.cacheWriteVal, V1.inputVal, V1.outputVal,
        V1.toolCallOverhead, V1.contextAccumulation, V1.iterationsParam,
        V1.IDE_DEFAULT, V1.TOOL_CALL_OVERHEAD]
    · simp only [V1.totalTokens, V1.finalMultiplier, V1.SAFETY_DEFAULT]

/-- C5: With every optional field omitted (a tool-call count supplied as 0)
and `estimated_cache_read_tokens = 0`, the documented defaults are
substituted — IDE overhead in the 50000–60000 range, safety multiplier in
1.3–1.5, iteration count 1, every other optional numeric field 0 — and the
final total equals `round(ideOverheadDefault × safetyMultiplierDefault)`:
90000 for the current version, 65000 for the earlier one. -/
theorem C5_default_substitution (task plan : String) (risk : RiskLevel) :
    V2.ideContextOverhead (defaultsInput task plan risk) = V2.IDE_DEFAULT ∧
    (50000 : ℚ) ≤ V2.IDE_DEFAULT ∧ V2.IDE_DEFAULT ≤ 60000 ∧
    V2.finalMultiplier (defaultsInput task plan risk) = V2.SAFETY_DEFAULT ∧
    (13/10 : ℚ) ≤ V2.SAFETY_DEFAULT ∧ V2.SAFETY_DEFAULT ≤ 3/2 ∧
    jsOrNum (V2.iterationsParam (defaultsInput task plan risk)) 1 = 1 ∧
    V2.cacheWriteVal (defaultsInput task plan risk) = 0 ∧
    V2.inputVal (defaultsInput task plan risk) = 0 ∧
    V2.outputVal (defaultsInput task plan risk) = 0 ∧
    V2.toolCallOverhead (defaultsInput task plan risk) = 0 ∧
    V2.contextAccumulation (defaultsInput task plan risk) = 0 ∧
    V2.totalTokens (defaultsInput task plan risk) =
      jround (V2.IDE_DEFAULT * V2.SAFETY_DEFAULT) ∧
    V2.totalTokens (defaultsInput task plan risk) = 90000 ∧
    V1.ideContextOverhead (defaultsInput task plan risk) = V1.IDE_DEFAULT ∧
    (50000 : ℚ) ≤ V1.IDE_DEFAULT ∧ V1.IDE_DEFAULT ≤ 60000 ∧
    V1.finalMultiplier (defaultsInput task plan risk) = V1.SAFETY_DEFAULT ∧
    (13/10 : ℚ) ≤ V1.SAFETY_DEFAULT ∧ V1.SAFETY_DEFAULT ≤ 3/2 ∧
    V1.totalTokens (defaultsInput task plan risk) =
      jround (V1.IDE_DEFAULT * V1.SAFETY_DEFAULT) ∧
    V1.totalTokens (defaultsInput task plan risk) = 65000 := by
  have hpre2 : V2.totalBeforeMultiplier (defaultsInput task plan risk) =
      60000 := by
    simp [V2.totalBeforeMultiplier, V2.baseTokens, V2.cacheReadTotal,
      V2.ideContextOverhead, V2.cacheWriteVal, V2.inputVal, V2.outputVal,
      V2.toolCallOverhead, V2.contextAccumulation, V2.iterationsParam,
      V2.IDE_DEFAULT, defaultsInput, jsOrNum]
  have hm2 : V2.finalMultiplier (defaultsInput task plan risk) = 3/2 := by
    simp [V2.finalMultiplier, V2.SAFETY_DEFAULT, defaultsInput, jsOrNum]
  have ht2 : V2.totalTokens (defaultsInput task plan risk) = 90000 := by
    rw [V2.totalTokens, hpre2, hm2]
    exact jround_eq_of _ _ (by norm_num) (by norm_num)
  have hpre1 : V1.totalBeforeMultiplier (defaultsInput task plan risk) =
      50000 := by
    simp [V1.totalBeforeMultiplier, V1.baseTokens, V1.cacheReadTotal,
      V1.ideContextOverhead, V1.cacheWriteVal, V1.inputVal, V1.outputVal,
      V1.toolCallOverhead, V1.contextAccumulation, V1.iterationsParam,
      V1.IDE_DEFAULT, defaultsInput, jsOrNum]
  have hm1 : V1.finalMultiplier (defaultsInput task plan risk) = 13/10 := by
    simp [V1.finalMultiplier, V1.SAFETY_DEFAULT, defaultsInput, jsOrNum]
  have ht1 : V1.totalTokens (defaultsInput task plan risk) = 65000 := by
    rw [V1.totalTokens, hpre1, hm1]
    exact jround_eq_of _ _ (by norm_num) (by norm_num)
  have hr2 : jround (V2.IDE_DEFAULT * V2.SAFETY_DEFAULT) = 90000 := by
    rw [V2.IDE_DEFAULT, V2.SAFETY_DEFAULT]
    exact jround_eq_of _ _ (by norm_num) (by norm_num)
  have hr1 : jround (V1.IDE_DEFAULT * V1.SAFETY_DEFAULT) = 65000 := by
    rw [V1.IDE_DEFAULT, V1.SAFETY_DEFAULT]
    exact jround_eq_of _ _ (by norm_num) (by norm_num)
  refine ⟨?_, by norm_num [V2.IDE_DEFAULT], by norm_num [V2.IDE_DEFAULT],
    ?_, by norm_num [V2.SAFETY_DEFAULT], by norm_num [V2.SAFETY_DEFAULT],
    ?_, ?_, ?_, ?_, ?_, ?_, by rw [ht2, hr2], ht2,
    ?_, by norm_num [V1.IDE_DEFAULT], by norm_num [V1.IDE_DEFAULT],
    ?_, by norm_num [V1.SAFETY_DEFAULT], by norm_num [V1.SAFETY_DEFAULT],
    by rw [ht1, hr1], ht1⟩
  · simp [V2.ideContextOverhead, V2.IDE_DEFAULT, defaultsInput, jsOrNum]
  · exact hm2
  · simp [V2.iterationsParam, defaultsInput, jsOrNum]
  · simp [V2.cacheWriteVal, defaultsInput, jsOrNum]
  · simp [V2.inputVal, defaultsInput, jsOrNum]
  · simp [V2.outputVal, defaultsInput, jsOrNum]
  · simp [V2.toolCallOverhead, defaultsInput, jsOrNum]
  · simp [V2.contextAccumulation, defaultsInput, jsOrNum]
  · simp [V1.ideContextOverhead, V1.IDE_DEFAULT, defaultsInput, jsOrNum]
  · exact hm1

/-- C9: In exact-measurement mode the total processed input equals the sum
over turn index `k` in `[0, effectiveIterations)` of
`baseContext + k × perTurnHistoryGrowth`; in particular, when the effective
iteration count is 1, it equals the base context exactly (spec-modelled:
this mode has no implementation under `src/`). -/
theorem C9_exact_mode_total (t : ExactMode.TierFloors)
    (measured iters growth : ℕ) :
    ExactMode.totalProcessedInput t measured iters growth =
      ∑ k in Finset.range (ExactMode.effectiveIterations t iters),
        (ExactMode.baseContext t measured + k * growth) ∧
    (ExactMode.effectiveIterations t iters = 1 →
      ExactMode.totalProcessedInput t measured iters growth =
        ExactMode.baseContext t measured) := by
  have hs := foldl_range_sum
    (fun k => ExactMode.baseContext t measured + k * growth)
    (ExactMode.effectiveIterations t iters)
  constructor
  · exact hs
  · intro h
    rw [ExactMode.totalProcessedInput] at *
    rw [hs, h, Finset.sum_range_one]
    simp

/-- Witness for C9: the `⟨1, 0⟩` tier floors with one requested iteration
give an effective iteration count of 1, and the total processed input is
exactly the base context (500 measured + 0 search overhead + 90000 IDE
overhead). -/
theorem C9_exact_mode_total_witness :
    ExactMode.effectiveIterations ⟨1, 0⟩ 1 = 1 ∧
    ExactMode.totalProcessedInput ⟨1, 0⟩ 500 1 7 =
      ExactMode.baseContext ⟨1, 0⟩ 500 ∧
    ExactMode.baseContext ⟨1, 0⟩ 500 = 90500 :=
  ⟨rfl, (C9_exact_mode_total ⟨1, 0⟩ 500 1 7).2 rfl,
   by norm_num [ExactMode.baseContext, ExactMode.IDE_OVERHEAD]⟩

end CostEstimate

namespace CostEstimate

/-- C3: For every decision object returned by the approval collaborator,
`action === "accept"` yields the proceed instruction (which directs
continuation: it contains "Proceed"), and any other action — including an
absent one (`none`) — yields the halt instruction (containing
"Stop immediately") as a normal, non-error-flagged result.  Stated for both
source versions (their dispatch code is identical). -/
theorem C3_action_dispatch (i : EstimateInput) (act : Option String) :
    (act = some "accept" →
      V2.handler i (fun _ => Except.ok act) =
        ⟨V2.approvedText i.task_name, false⟩ ∧
      V1.handler i (fun _ => Except.ok act) =
        ⟨V2.approvedText i.task_name, false⟩ ∧
      strIncludes (V2.approvedText i.task_name) "Proceed" = true) ∧
    (act ≠ some "accept" →
      V2.handler i (fun _ => Except.ok act) =
        ⟨V2.rejectedText i.task_name, false⟩ ∧
      V1.handler i (fun _ => Except.ok act) =
        ⟨V2.rejectedText i.task_name, false⟩ ∧
      (V2.handler i (fun _ => Except.ok act)).isError = false ∧
      strIncludes (V2.rejectedText i.task_name) "Stop immediately" = true) := by
  constructor
  · intro h
    subst h
    refine ⟨?_, ?_, approvedText_has_proceed _⟩ <;>
      simp [V2.handler, V1.handler]
  · intro h
    refine ⟨?_, ?_, ?_, rejectedText_has_stop _⟩ <;>
      simp [V2.handler, V1.handler, h]

/-- Witness for C3: on the sample input, an `accept` action produces the
approved result and an absent action produces the non-error rejected
result. -/
theorem C3_action_dispatch_witness :
    V2.handler fullySuppliedInput (fun _ => Except.ok (some "accept")) =
      ⟨V2.approvedText "Fix typo", false⟩ ∧
    V2.handler fullySuppliedInput (fun _ => Except.ok none) =
      ⟨V2.rejectedText "Fix typo", false⟩ ∧
    (V2.handler fullySuppliedInput (fun _ => Except.ok none)).isError =
      false := by
  have h1 := (C3_action_dispatch fullySuppliedInput (some "accept")).1 rfl
  have h2 := (C3_action_dispatch fullySuppliedInput none).2 (by simp)
  exact ⟨h1.1, h2.1, h2.2.2.1⟩

/-- C4: Every fault raised while communicating with the approval
collaborator (the request throws — which is also how transport-level
malformed data surfaces) is caught: the handler returns the error-flagged
`Middleware Error` result carrying the raw failure description, never
re-raises (it is a total function into `ToolResult`), and terminates
without retry (`respond` is invoked exactly once by construction).  Both
source versions. -/
theorem C4_transport_fault (i : EstimateInput) (e : String) :
    V2.handler i (fun _ => Except.error e) =
      ⟨"Middleware Error: " ++ e, true⟩ ∧
    V1.handler i (fun _ => Except.error e) =
      ⟨"Middleware Error: " ++ e, true⟩ ∧
    (V2.handler i (fun _ => Except.error e)).isError = true ∧
    strIncludes ("Middleware Error: " ++ e) e = true :=
  ⟨rfl, rfl, rfl, strIncludes_append_left _ _ _ (strIncludes_self e)⟩

end CostEstimate

namespace CostEstimate

/-- C2 counterexample: a plan text that contains the claimed vocabulary
word `refactor` (case-insensitively) together with a cache-read estimate
below 100000, for which no multiplier is applied and no warning is
attached — the source only tests refactoring vocabulary against the task
name, and only codebase-search phrases against the plan. -/
theorem C2_counterexample :
    includesLower planRefactorInput.pre_plan "refactor" = true ∧
    planRefactorInput.estimated_cache_read_tokens < 100000 ∧
    V2.isRefactoringTask planRefactorInput = false ∧
    V2.refactoringMultiplier planRefactorInput = 1 ∧
    V2.refactoringWarning planRefactorInput = "" := by
  have hf : V2.isRefactoringTask planRefactorInput = false := by decide
  refine ⟨by decide, by norm_num [planRefactorInput], hf, ?_, ?_⟩
  · simp [V2.refactoringMultiplier, hf]
  · simp [V2.refactoringWarning, hf]

/-- C2 (amended): if the task NAME contains refactor / refactoring /
extract / share / common / duplicate, or the PLAN text contains
codebase_search / codebase search / search the codebase
(case-insensitively), and the declared cache-read estimate is below
100000, then the cache-read component is multiplied by exactly 3 and the
warning annotation is attached to the output breakdown; whenever the
declared cache-read estimate is at or above 100000, no multiplier is
applied and no warning is attached. -/
theorem C2_keyword_multiplier (i : EstimateInput) :
    ((includesLower i.task_name "refactor" = true ∨
      includesLower i.task_name "refactoring" = true ∨
      includesLower i.task_name "extract" = true ∨
      includesLower i.task_name "share" = true ∨
      includesLower i.task_name "common" = true ∨
      includesLower i.task_name "duplicate" = true ∨
      includesLower i.pre_plan "codebase_search" = true ∨
      includesLower i.pre_plan "codebase search" = true ∨
      includesLower i.pre_plan "search the codebase" = true) →
      i.estimated_cache_read_tokens < 100000 →
      V2.refactoringMultiplier i = 3 ∧
      V2.refactoringWarning i = V2.REFACTORING_WARNING ∧
      V2.refactoringWarning i ≠ "" ∧
      V2.cacheReadTotal i =
        i.estimated_cache_read_tokens * 3 *
          jsOrNum (V2.iterationsParam i) 1 ∧
      strIncludes (V2.tokenBreakdown i) "REFACTORING DETECTED" = true) ∧
    ((100000 : ℚ) ≤ i.estimated_cache_read_tokens →
      V2.refactoringMultiplier i = 1 ∧ V2.refactoringWarning i = "") := by
  constructor
  · intro hkw hlt
    have hr : V2.isRefactoringTask i = true := by
      unfold V2.isRefactoringTask
      rcases hkw with h | h | h | h | h | h | h | h | h <;> simp [h]
    have hm : V2.refactoringMultiplier i = 3 := by
      simp [V2.refactoringMultiplier, hr, hlt]
    have hw : V2.refactoringWarning i = V2.REFACTORING_WARNING := by
      simp [V2.refactoringWarning, hr, hlt]
    refine ⟨hm, hw, ?_, ?_, ?_⟩
    · rw [hw]
      decide
    · rw [V2.cacheReadTotal, hm]
    · have h1 : strIncludes
          ("Total: " ++ V2.displayTotal i ++ " tokens" ++
            V2.refactoringWarning i) "REFACTORING DETECTED" = true :=
        strIncludes_append_left _ _ _ (by rw [hw]; decide)
      rw [V2.tokenBreakdown, V2.breakdownLines]
      exact joinLines_head_includes _ _ _ h1
  · intro hge
    have hnlt : ¬ i.estimated_cache_read_tokens < 100000 := not_lt.mpr hge
    constructor
    · simp [V2.refactoringMultiplier, hnlt]
    · simp [V2.refactoringWarning, hnlt]

/-- Witness for C2: a task named "Refactor Database" with a 50000
cache-read estimate gets the 3× multiplier and the warning; the same task
with a 100000 estimate gets neither. -/
theorem C2_keyword_multiplier_witness :
    V2.refactoringMultiplier nameRefactorInput = 3 ∧
    V2.refactoringWarning nameRefactorInput ≠ "" ∧
    V2.refactoringMultiplier nameRefactorBigInput = 1 ∧
    V2.refactoringWarning nameRefactorBigInput = "" := by
  have h1 := (C2_keyword_multiplier nameRefactorInput).1
    (Or.inl (by decide)) (by norm_num [nameRefactorInput])
  have h2 := (C2_keyword_multiplier nameRefactorBigInput).2
    (by norm_num [nameRefactorBigInput])
  exact ⟨h1.1, h1.2.2.1, h2.1, h2.2⟩

end CostEstimate

namespace CostEstimate

/-- C6 counterexample: the input schema accepts negative numeric fields
and nothing clamps them — with `estimated_cache_read_tokens = -100000` and
every optional field omitted, both the pre-multiplier total and the final
rounded total are negative in both source versions. -/
theorem C6_counterexample :
    V2.totalBeforeMultiplier negativeInput = -40000 ∧
    V2.totalTokens negativeInput = -60000 ∧
    V1.totalBeforeMultiplier negativeInput = -50000 ∧
    V1.totalTokens negativeInput = -65000 := by
  have hf : V2.isRefactoringTask negativeInput = false := by decide
  simp only [negativeInput] at hf
  have hpre2 : V2.totalBeforeMultiplier negativeInput = -40000 := by
    simp [V2.totalBeforeMultiplier, V2.baseTokens, V2.cacheReadTotal,
      V2.refactoringMultiplier, hf, V2.ideContextOverhead, V2.cacheWriteVal,
      V2.inputVal, V2.outputVal, V2.toolCallOverhead, V2.contextAccumulation,
      V2.iterationsParam, V2.IDE_DEFAULT, negativeInput, jsOrNum]
    norm_num
  have hm2 : V2.finalMultiplier negativeInput = 3/2 := by
    simp [V2.finalMultiplier, V2.SAFETY_DEFAULT, negativeInput, jsOrNum]
  have hpre1 : V1.totalBeforeMultiplier negativeInput = -50000 := by
    simp [V1.totalBeforeMultiplier, V1.baseTokens, V1.cacheReadTotal,
      V1.ideContextOverhead, V1.cacheWriteVal, V1.inputVal, V1.outputVal,
      V1.toolCallOverhead, V1.contextAccumulation, V1.iterationsParam,
      V1.IDE_DEFAULT, negativeInput, jsOrNum]
    norm_num
  have hm1 : V1.finalMultiplier negativeInput = 13/10 := by
    simp [V1.finalMultiplier, V1.SAFETY_DEFAULT, negativeInput, jsOrNum]
  refine ⟨hpre2, ?_, hpre1, ?_⟩
  · rw [V2.totalTokens, hpre2, hm2]
    exact jround_eq_of _ _ (by norm_num) (by norm_num)
  · rw [V1.totalTokens, hpre1, hm1]
    exact jround_eq_of _ _ (by norm_num) (by norm_num)

/-- C6 (amended): when every numeric field that is supplied is
non-negative, the pre-multiplier total and the final rounded total are
non-negative, in both source versions. -/
theorem C6_nonneg_totals (i : EstimateInput) (h : NonNegFields i) :
    0 ≤ V2.totalBeforeMultiplier i ∧ 0 ≤ V2.totalTokens i ∧
    0 ≤ V1.totalBeforeMultiplier i ∧ 0 ≤ V1.totalTokens i := by
  obtain ⟨h0, h1, h2, h3, h4, h5, h6, h7, h8⟩ := h
  have mult_nn : 0 ≤ V2.refactoringMultiplier i := by
    unfold V2.refactoringMultiplier
    split
    · split <;> norm_num
    · norm_num
  have iter_nn : 0 ≤ jsOrNum (V2.iterationsParam i) 1 :=
    jsOrNum_nonneg _ _ (getD_nonneg _ _ h6 (by norm_num)) (by norm_num)
  have crt2 : 0 ≤ V2.cacheReadTotal i :=
    mul_nonneg (mul_nonneg h0 mult_nn) iter_nn
  have ide2 : 0 ≤ V2.ideContextOverhead i :=
    jsOrNum_nonneg _ _
      (getD_nonneg _ _ h1 (by norm_num [V2.IDE_DEFAULT]))
      (by norm_num [V2.IDE_DEFAULT])
  have write_nn : (0 : ℚ) ≤ jsOrNum (i.estimated_cache_write_tokens.getD 0) 0 :=
    jsOrNum_nonneg _ _ (getD_nonneg _ _ h2 le_rfl) le_rfl
  have input_nn : (0 : ℚ) ≤ jsOrNum (i.estimated_input_tokens.getD 0) 0 :=
    jsOrNum_nonneg _ _ (getD_nonneg _ _ h3 le_rfl) le_rfl
  have output_nn : (0 : ℚ) ≤ jsOrNum (i.estimated_output_tokens.getD 0) 0 :=
    jsOrNum_nonneg _ _ (getD_nonneg _ _ h4 le_rfl) le_rfl
  have tool_nn : 0 ≤ V2.toolCallOverhead i :=
    mul_nonneg (jsOrNum_nonneg _ _ (getD_nonneg _ _ h5 le_rfl) le_rfl)
      (by norm_num [V2.TOOL_CALL_OVERHEAD])
  have ctx_nn : 0 ≤ V2.contextAccumulation i :=
    jsOrNum_nonneg _ _ (getD_nonneg _ _ h7 le_rfl) le_rfl
  have pre2 : 0 ≤ V2.totalBeforeMultiplier i := by
    rw [V2.totalBeforeMultiplier, V2.baseTokens]
    have := add_nonneg (add_nonneg (add_nonneg (add_nonneg crt2 ide2)
      write_nn) input_nn) output_nn
    exact add_nonneg (add_nonneg this tool_nn) ctx_nn
  have sm2 : 0 ≤ V2.finalMultiplier i :=
    jsOrNum_nonneg _ _
      (getD_nonneg _ _ h8 (by norm_num [V2.SAFETY_DEFAULT]))
      (by norm_num [V2.SAFETY_DEFAULT])
  have crt1 : 0 ≤ V1.cacheReadTotal i := mul_nonneg h0 iter_nn
  have ide1 : 0 ≤ V1.ideContextOverhead i :=
    jsOrNum_nonneg _ _
      (getD_nonneg _ _ h1 (by norm_num [V1.IDE_DEFAULT]))
      (by norm_num [V1.IDE_DEFAULT])
  have tool1 : 0 ≤ V1.toolCallOverhead i :=
    mul_nonneg (jsOrNum_nonneg _ _ (getD_nonneg _ _ h5 le_rfl) le_rfl)
      (by norm_num [V1.TOOL_CALL_OVERHEAD])
  have pre1 : 0 ≤ V1.totalBeforeMultiplier i := by
    rw [V1.totalBeforeMultiplier, V1.baseTokens]
    have := add_nonneg (add_nonneg (add_nonneg (add_nonneg crt1 ide1)
      write_nn) input_nn) output_nn
    exact add_nonneg (add_nonneg this tool1) ctx_nn
  have sm1 : 0 ≤ V1.finalMultiplier i :=
    jsOrNum_nonneg _ _
      (getD_nonneg _ _ h8 (by norm_num [V1.SAFETY_DEFAULT]))
      (by norm_num [V1.SAFETY_DEFAULT])
  exact ⟨pre2, jround_nonneg _ (mul_nonneg pre2 sm2), pre1,
    jround_nonneg _ (mul_nonneg pre1 sm1)⟩

/-- Witness for C6 (amended): the fully supplied non-negative sample input
satisfies the hypothesis and yields a non-negative final total. -/
theorem C6_nonneg_totals_witness :
    NonNegFields fullySuppliedInput ∧
    0 ≤ V2.totalTokens fullySuppliedInput := by
  have h : NonNegFields fullySuppliedInput := by
    refine ⟨by norm_num [fullySuppliedInput], ?_, ?_, ?_, ?_, ?_, ?_, ?_, ?_⟩
      <;> · intro x hx
            simp [fullySuppliedInput] at hx
            subst hx
            norm_num
  exact ⟨h, (C6_nonneg_totals fullySuppliedInput h).2.1⟩

end CostEstimate

namespace CostEstimate

/-- C7: The deprecated `estimated_tokens` override affects only the
displayed total line: every computed numeric value (cache-read total,
pre-multiplier total, safety multiplier applied, final rounded total) is
unchanged by any override value, the breakdown lines after the first are
unchanged, all 11 lines are still produced (never suppressed) with the
computed final total in the last line, and a non-empty override string is
what appears as the displayed total.  Both source versions. -/
theorem C7_override_display_only (i : EstimateInput) (o : Option String) :
    V2.cacheReadTotal (i.setOverride o) = V2.cacheReadTotal i ∧
    V2.totalBeforeMultiplier (i.setOverride o) = V2.totalBeforeMultiplier i ∧
    V2.finalMultiplier (i.setOverride o) = V2.finalMultiplier i ∧
    V2.totalTokens (i.setOverride o) = V2.totalTokens i ∧
    (V2.breakdownLines (i.setOverride o)).tail = (V2.breakdownLines i).tail ∧
    (V2.breakdownLines (i.setOverride o)).length = 11 ∧
    (V2.breakdownLines (i.setOverride o)).getLast? =
      some ("• Final Estimate: " ++ intLoc (V2.totalTokens i) ++ " tokens") ∧
    (∀ s, o = some s → s ≠ "" → V2.displayTotal (i.setOverride o) = s) ∧
    V1.totalTokens (i.setOverride o) = V1.totalTokens i ∧
    (V1.breakdownLines (i.setOverride o)).tail =
      (V1.breakdownLines i).tail := by
  refine ⟨rfl, rfl, rfl, rfl, rfl, rfl, rfl, ?_, rfl, rfl⟩
  intro s hs hne
  subst hs
  simp [V2.displayTotal, EstimateInput.setOverride, jsOrStr, hne]

/-- Witness for C7: overriding the display string on the sample input
changes the displayed total to the override but leaves the computed final
total unchanged. -/
theorem C7_override_display_only_witness :
    V2.displayTotal (fullySuppliedInput.setOverride (some "999999")) =
      "999999" ∧
    V2.totalTokens (fullySuppliedInput.setOverride (some "999999")) =
      V2.totalTokens fullySuppliedInput := by
  have h := C7_override_display_only fullySuppliedInput (some "999999")
  exact ⟨h.2.2.2.2.2.2.2.1 "999999" rfl (by decide), h.2.2.2.1⟩

/-- C10: On every input whose optional numeric fields (including the
iteration count and the safety multiplier) are explicitly supplied with
non-zero values and whose task name and plan text trigger none of the
refactoring/search keywords, the two source versions compute equal
cache-read totals, equal pre-multiplier totals and equal final rounded
totals. -/
theorem C10_version_equivalence (i : EstimateInput)
    (hide : suppliedNZ i.estimated_ide_context_overhead)
    (hw : suppliedNZ i.estimated_cache_write_tokens)
    (hin : suppliedNZ i.estimated_input_tokens)
    (hout : suppliedNZ i.estimated_output_tokens)
    (htc : suppliedNZ i.estimated_tool_calls)
    (hit : suppliedNZ i.estimated_iterations)
    (hctx : suppliedNZ i.estimated_context_accumulation)
    (hsm : suppliedNZ i.safety_multiplier)
    (hkw : V2.isRefactoringTask i = false) :
    V2.cacheReadTotal i = V1.cacheReadTotal i ∧
    V2.totalBeforeMultiplier i = V1.totalBeforeMultiplier i ∧
    V2.totalTokens i = V1.totalTokens i := by
  obtain ⟨xide, hxide, nide⟩ := hide
  obtain ⟨xsm, hxsm, nsm⟩ := hsm
  have hcrt : V2.cacheReadTotal i = V1.cacheReadTotal i := by
    simp [V2.cacheReadTotal, V1.cacheReadTotal, V2.refactoringMultiplier,
      hkw, V2.iterationsParam, V1.iterationsParam, mul_one]
  have hide' : V2.ideContextOverhead i = V1.ideContextOverhead i := by
    rw [V2.ideContextOverhead, V1.ideContextOverhead, hxide]
    simp [Option.getD, jsOrNum_of_ne _ _ nide]
  have hpre : V2.totalBeforeMultiplier i = V1.totalBeforeMultiplier i := by
    rw [V2.totalBeforeMultiplier, V1.totalBeforeMultiplier, V2.baseTokens,
      V1.baseTokens, hcrt, hide']
    rfl
  have hsm' : V2.finalMultiplier i = V1.finalMultiplier i := by
    rw [V2.finalMultiplier, V1.finalMultiplier, hxsm]
    simp [Option.getD, jsOrNum_of_ne _ _ nsm]
  exact ⟨hcrt, hpre, by rw [V2.totalTokens, V1.totalTokens, hpre, hsm']⟩

/-- Witness for C10: the keyword-free fully supplied sample input satisfies
every hypothesis, and both versions compute the same final total, 192000. -/
theorem C10_version_equivalence_witness :
    V2.totalTokens fullySuppliedInput = V1.totalTokens fullySuppliedInput ∧
    V2.totalTokens fullySuppliedInput = 192000 := by
  have heq := C10_version_equivalence fullySuppliedInput
    ⟨50000, rfl, by norm_num⟩ ⟨5000, rfl, by norm_num⟩
    ⟨1000, rfl, by norm_num⟩ ⟨2000, rfl, by norm_num⟩
    ⟨10, rfl, by norm_num⟩ ⟨2, rfl, by norm_num⟩
    ⟨3000, rfl, by norm_num⟩ ⟨2, rfl, by norm_num⟩ (by decide)
  have hf : V2.isRefactoringTask fullySuppliedInput = false := by decide
  simp only [fullySuppliedInput] at hf
  have hpre : V2.totalBeforeMultiplier fullySuppliedInput = 96000 := by
    simp [V2.totalBeforeMultiplier, V2.baseTokens, V2.cacheReadTotal,
      V2.refactoringMultiplier, hf, V2.ideContextOverhead, V2.cacheWriteVal,
      V2.inputVal, V2.outputVal, V2.toolCallOverhead, V2.contextAccumulation,
      V2.iterationsParam, V2.TOOL_CALL_OVERHEAD, fullySuppliedInput, jsOrNum]
    norm_num
  have hm : V2.finalMultiplier fullySuppliedInput = 2 := by
    simp [V2.finalMultiplier, fullySuppliedInput, jsOrNum]
  refine ⟨heq.2.2, ?_⟩
  rw [V2.totalTokens, hpre, hm]
  exact jround_eq_of _ _ (by norm_num) (by norm_num)

end CostEstimate

namespace CostEstimate

/-- C8: For every path that does not exist or cannot be stat'd, the
scanner returns `{tokens: 0, filesCounted: 0, filesSkipped: 1}`, and the
scan is total over any input path — the error channel of the `Except`
result is never used, i.e. it never throws to its caller (spec-modelled:
the scanner has no implementation under `src/`). -/
theorem C8_scan_missing_and_total (ign : Scanner.IgnoreSets)
    (n : Scanner.FsNode) (hfail : Scanner.statFails n = true) :
    Scanner.scanT ign n = Except.ok ⟨0, 0, 1⟩ ∧
    ∀ m : Scanner.FsNode, ∃ r, Scanner.scanT ign m = Except.ok r := by
  constructor
  · cases n with
    | missing => rfl
    | unreadable ext => simp [Scanner.statFails, Scanner.statE] at hfail
    | file ext t => simp [Scanner.statFails, Scanner.statE] at hfail
    | dir name cs => simp [Scanner.statFails, Scanner.statE] at hfail
  · exact fun m => Scanner.scanT_ok ign m

/-- Witness for C8: with a concrete ignore configuration, the missing path
yields one skipped unit, and scanning a concrete tree (one readable file,
one ignored file, one missing entry) never throws. -/
theorem C8_scan_missing_and_total_witness :
    Scanner.scanT sampleIgnore .missing = Except.ok ⟨0, 0, 1⟩ ∧
    ∃ r, Scanner.scanT sampleIgnore sampleTree = Except.ok r :=
  ⟨(C8_scan_missing_and_total sampleIgnore .missing rfl).1,
   (C8_scan_missing_and_total sampleIgnore .missing rfl).2 sampleTree⟩

end CostEstimate
